import Mathlib

/-! Verification of the public Assessment Workflow API
(apps/openassessment/workflow/api.py).

The module under study offers three operations — `create_workflow`,
`get_workflow_for_submission` and `update_from_assessments` — over a store of
per-submission workflow records, calling out to an external submission service
and translating collaborator failures into a typed error taxonomy
(AssessmentWorkflowRequestError / AssessmentWorkflowNotFoundError /
AssessmentWorkflowInternalError, all subclasses of AssessmentWorkflowError).

The embedding below models the Python module shallowly: the dynamic argument
`submission_uuid` is a `PyVal` (a string or some non-string value, mirroring
the `isinstance(submission_uuid, basestring)` check); Python exception
propagation is an `Except PyExn` result; the database is an explicit list of
workflow records threaded through each operation; the external collaborators
(submission service behaviour, storage faults, step evaluators, clock, uuid
generator) live in an `Env` record so theorems quantify over all of their
behaviours.
-/

namespace WorkflowApi

/-- Workflow status values. The spec's status set is
{Peer, Self, Training, AI, Waiting, Done, Cancelled}. -/
inductive Status where
  | peer
  | self_
  | training
  | ai
  | waiting
  | done
  | cancelled
deriving DecidableEq, Repr

/-- A dynamically typed Python value passed as `submission_uuid`: either a
string, or some non-string value carrying only a tag (its repr). The code
checks `isinstance(submission_uuid, basestring)` before any store access. -/
inductive PyVal where
  | str (s : String)
  | other (tag : String)
deriving DecidableEq, Repr

/-- Render a `PyVal` into an error-message fragment (Python's str/format). -/
def pvStr : PyVal → String
  | .str s => s
  | .other tag => tag

/-- A persisted workflow record: `uuid` (primary key), `submission_uuid`
(unique per spec), `status`, `created`/`modified` timestamps. -/
structure Workflow where
  uuid : String
  submission_uuid : PyVal
  status : Status
  created : Nat
  modified : Nat
deriving DecidableEq, Repr

/-- The typed error taxonomy of the workflow API: the three concrete classes
AssessmentWorkflowRequestError, AssessmentWorkflowNotFoundError and
AssessmentWorkflowInternalError. Each is a subclass of the common base
AssessmentWorkflowError; membership in this type models membership in the
base class. -/
inductive WorkflowError where
  | request (msg : String)
  | notFound (msg : String)
  | internal (msg : String)
deriving DecidableEq, Repr

/-- Any Python exception that can cross a function boundary in this module:
either a typed workflow error (`wf`, the AssessmentWorkflowError family), or a
raw collaborator exception (submission-service errors, django DatabaseError,
the ORM DoesNotExist, or any other unexpected exception). -/
inductive PyExn where
  | wf (e : WorkflowError)
  | subNotFound (msg : String)
  | subRequest (msg : String)
  | subInternal (msg : String)
  | dbError (msg : String)
  | doesNotExist (msg : String)
  | otherExn (msg : String)
deriving DecidableEq, Repr

/-- True exactly on errors of the AssessmentWorkflowError family. -/
def isWorkflowError : PyExn → Bool
  | .wf _ => true
  | _ => false

/-- True exactly on raw collaborator (storage / transport / service)
exceptions, i.e. anything outside the typed taxonomy. -/
def isRawCollaboratorError : PyExn → Bool
  | .wf _ => false
  | _ => true

/-- Result of the external submission service `get_submission` call: a
submission record, or one of its three failure kinds
(SubmissionNotFoundError, SubmissionRequestError, SubmissionInternalError). -/
inductive SubResult where
  | ok (submission : String)
  | notFound (msg : String)
  | invalid (msg : String)
  | internalErr (msg : String)
deriving DecidableEq, Repr

/-- True iff the submission service returned a record. -/
def isOkSub : SubResult → Bool
  | .ok _ => true
  | _ => false

/-- Possible values in a serialized snapshot dict. -/
inductive DVal where
  | s (x : String)
  | pv (x : PyVal)
  | st (x : Status)
  | time (x : Nat)
  | details (x : List (Status × Bool))
deriving DecidableEq, Repr

/-- A snapshot dict: ordered association list of field name to value, as a
Python dict with insertion order. -/
abbrev Dict := List (String × DVal)

/-- The workflow store: the set of persisted workflow records. -/
abbrev Store := List Workflow

/-- The environment of external collaborators and nondeterminism:
submission-service behaviour, storage faults on create and on the model-layer
save, an unexpected exception injected into the ORM get, the per-step
evaluator signals, and the uuid/clock sources. -/
structure Env where
  sub : PyVal → SubResult
  createFail : Option String
  getExn : Option String
  saveFail : Option String
  sat : PyVal → List Status → Status → Bool
  newUuid : String
  now : Nat

/-- Modelled from the spec (models.py is not in the sources): the fixed
evaluation order of the configured step types. The spec fixes "peer" as the
first configured step, and its scenarios exercise a peer step followed by a
self step. -/
def stepOrder : List Status := [Status.peer, Status.self_]

/-- The suffix of the fixed order starting at the step at or after `cur`;
when `cur` is not itself a configured step (e.g. Waiting), the whole order
is walked. -/
def suffixFrom (cur : Status) : List Status :=
  if cur ∈ stepOrder then stepOrder.dropWhile (fun s => s != cur) else stepOrder

/-- Walk the remaining steps: a step not in the requirements is skipped; the
first required unsatisfied step becomes the status; exhausting the walk gives
Done. -/
def walk (req : List Status) (sat : Status → Bool) : List Status → Status
  | [] => Status.done
  | s :: rest =>
    if s ∈ req then (if sat s then walk req sat rest else s)
    else walk req sat rest

/-- Modelled from the spec (the Workflow Engine lives in models.py, not in the
sources): recompute the status from the current status, the required steps and
the per-step satisfaction signals; Done and Cancelled are terminal. -/
def recompute (req : List Status) (sat : Status → Bool) (cur : Status) : Status :=
  if cur = Status.done ∨ cur = Status.cancelled then cur
  else walk req sat (suffixFrom cur)

/-- Modelled from the spec (models.py is not in the sources): the per-step
satisfaction report returned alongside the overall status. -/
def status_details (env : Env) (w : Workflow) (req : List Status) :
    List (Status × Bool) :=
  req.map (fun s => (s, env.sat w.submission_uuid req s))

/-- Modelled from the spec (the model method
`AssessmentWorkflow.update_from_assessments` lives in models.py, not in the
sources): recompute the status; persist only if it changed, stamping
`modified`; a storage failure during that save surfaces as an Internal-kind
workflow error per the spec's propagation policy. -/
def modelUpdateFromAssessments (env : Env) (w : Workflow) (req : List Status) :
    Except WorkflowError Workflow :=
  let newStatus := recompute req (env.sat w.submission_uuid req) w.status
  if newStatus = w.status then Except.ok w
  else
    match env.saveFail with
    | some m =>
        Except.error (WorkflowError.internal
          ("Could not update assessment workflow: " ++ m))
    | none => Except.ok { w with status := newStatus, modified := env.now }

/-- Modelled from the spec (serializers.py is not in the sources; the field
list matches the api.py docstrings): serialize a workflow record into a
snapshot dict with keys submission_uuid, uuid, status, created, modified. -/
def serialize (w : Workflow) : Dict :=
  [("submission_uuid", DVal.pv w.submission_uuid),
   ("uuid", DVal.s w.uuid),
   ("status", DVal.st w.status),
   ("created", DVal.time w.created),
   ("modified", DVal.time w.modified)]

/-- Python dict key assignment: replace the value if the key is present,
otherwise append the new key at the end. -/
def dictSet (d : Dict) (k : String) (v : DVal) : Dict :=
  if (d.lookup k).isSome then
    d.map (fun p => if p.1 = k then (k, v) else p)
  else d ++ [(k, v)]

/-- The helper `_serialized_with_details`: the serializer output with the
`status_details` key added. -/
def serialized_with_details (env : Env) (w : Workflow) (req : List Status) :
    Dict :=
  dictSet (serialize w) "status_details"
    (DVal.details (status_details env w req))

/-- The message built by the local `sub_err_msg` helper in `create_workflow`. -/
def sub_err_msg (submission_uuid : PyVal) (specific : String) : String :=
  "Could not create assessment workflow: retrieving submission " ++
    pvStr submission_uuid ++ " failed: " ++ specific

/-- Modelled from the spec: the storage layer's duplicate-key message when
`create` hits the unique constraint on `submission_uuid` (the spec's Store
Conflict; in django an IntegrityError, a subclass of DatabaseError). -/
def integrityError : String :=
  "UNIQUE constraint failed: assessmentworkflow.submission_uuid"

/-- The record inserted by `create_workflow`: fresh uuid, the given
submission_uuid, status peer, both timestamps set to the creation time. -/
def newWorkflow (env : Env) (submission_uuid : PyVal) : Workflow :=
  { uuid := env.newUuid, submission_uuid := submission_uuid,
    status := Status.peer, created := env.now, modified := env.now }

/-- The public `create_workflow`: resolve the submission via the external
submission service, translating its three failure kinds; then create the
record with status peer, translating any DatabaseError (including the
duplicate-key conflict when a workflow already exists, and any injected
storage fault) into an Internal-kind workflow error; return the serialized
snapshot and the updated store. -/
def create_workflow (env : Env) (store : Store) (submission_uuid : PyVal) :
    Except PyExn Dict × Store :=
  match env.sub submission_uuid with
  | SubResult.notFound _ =>
      (Except.error (PyExn.wf (WorkflowError.request
        (sub_err_msg submission_uuid "submission not found"))), store)
  | SubResult.invalid m =>
      (Except.error (PyExn.wf (WorkflowError.request
        (sub_err_msg submission_uuid m))), store)
  | SubResult.internalErr m =>
      (Except.error (PyExn.wf (WorkflowError.internal
        ("retrieving submission " ++ pvStr submission_uuid ++
         " failed with unknown error: " ++ m))), store)
  | SubResult.ok _ =>
      if (store.find? (fun w => w.submission_uuid == submission_uuid)).isSome then
        (Except.error (PyExn.wf (WorkflowError.internal
          ("Could not create assessment workflow: " ++ integrityError))), store)
      else
        match env.createFail with
        | some m =>
            (Except.error (PyExn.wf (WorkflowError.internal
              ("Could not create assessment workflow: " ++ m))), store)
        | none =>
            (Except.ok (serialize (newWorkflow env submission_uuid)),
             newWorkflow env submission_uuid :: store)

/-- The helper `_get_workflow_model`: reject non-string uuids with a
Request-kind error before any store access; fetch by submission_uuid,
translating DoesNotExist into NotFound-kind and any unexpected exception into
Internal-kind. -/
def get_workflow_model (env : Env) (store : Store) :
    PyVal → Except PyExn Workflow
  | PyVal.other _ =>
      Except.error (PyExn.wf (WorkflowError.request
        "submission_uuid must be a string type"))
  | PyVal.str s =>
      match env.getExn with
      | some m =>
          Except.error (PyExn.wf (WorkflowError.internal
            ("Could not get assessment workflow with submission_uuid " ++ s ++
             " due to error: " ++ m)))
      | none =>
          match store.find? (fun w => w.submission_uuid == PyVal.str s) with
          | some w => Except.ok w
          | none =>
              Except.error (PyExn.wf (WorkflowError.notFound
                ("No assessment workflow matching submission_uuid " ++ s)))

/-- The public `update_from_assessments`: fetch the workflow model, let the
model recompute and persist its status from the assessments, and return the
snapshot with status details, together with the updated store. -/
def update_from_assessments (env : Env) (store : Store) (submission_uuid : PyVal)
    (assessment_requirements : List Status) : Except PyExn Dict × Store :=
  match get_workflow_model env store submission_uuid with
  | Except.error e => (Except.error e, store)
  | Except.ok w =>
      match modelUpdateFromAssessments env w assessment_requirements with
      | Except.error we => (Except.error (PyExn.wf we), store)
      | Except.ok w2 =>
          (Except.ok (serialized_with_details env w2 assessment_requirements),
           store.map (fun x => if x.uuid = w2.uuid then w2 else x))

/-- The public `get_workflow_for_submission`: exactly a call to
`update_from_assessments`. -/
def get_workflow_for_submission (env : Env) (store : Store)
    (submission_uuid : PyVal) (assessment_requirements : List Status) :
    Except PyExn Dict × Store :=
  update_from_assessments env store submission_uuid assessment_requirements

/-- True iff an operation result is a success. -/
def isOk : Except PyExn Dict → Bool
  | Except.ok _ => true
  | Except.error _ => false

/-- True iff an operation result is a Request-kind workflow error. -/
def isReqErr : Except PyExn Dict → Bool
  | Except.error (PyExn.wf (WorkflowError.request _)) => true
  | _ => false

/-- True iff an operation result is an Internal-kind workflow error. -/
def isInternalErr : Except PyExn Dict → Bool
  | Except.error (PyExn.wf (WorkflowError.internal _)) => true
  | _ => false

/-- True iff an operation result is a NotFound-kind workflow error. -/
def isNotFoundErr : Except PyExn Dict → Bool
  | Except.error (PyExn.wf (WorkflowError.notFound _)) => true
  | _ => false

/-- True unless the result is a raw (untyped) collaborator error: every error
carried by the result belongs to the typed taxonomy. -/
def noRawLeak : Except PyExn Dict → Bool
  | Except.error e => isWorkflowError e
  | Except.ok _ => true

/-- Every error carried by the result is an instance of the common base
class: it is `PyExn.wf e` for some member `e` of the WorkflowError family. -/
def raisesOnlyBase : Except PyExn Dict → Prop
  | Except.error e => ∃ w : WorkflowError, e = PyExn.wf w
  | Except.ok _ => True

/-- A concrete environment in which every collaborator behaves: the
submission service finds every submission, no storage fault is injected, and
no step reports itself satisfied. -/
def env0 : Env :=
  { sub := fun _ => SubResult.ok "submission-record"
    createFail := none
    getExn := none
    saveFail := none
    sat := fun _ _ _ => false
    newUuid := "wf-uuid-2"
    now := 5 }

/-- A concrete stored workflow record for submission "sub-1". -/
def w0 : Workflow :=
  { uuid := "wf-uuid-1", submission_uuid := PyVal.str "sub-1",
    status := Status.peer, created := 1, modified := 1 }

/-- env0 with a submission service that reports every submission missing. -/
def envSubMissing : Env :=
  { env0 with sub := fun _ => SubResult.notFound "submission no" }

/-- env0 with a submission service that rejects every request as invalid. -/
def envSubInvalid : Env :=
  { env0 with sub := fun _ => SubResult.invalid "bad request" }

/-- env0 with a submission service that always fails internally. -/
def envSubDown : Env :=
  { env0 with sub := fun _ => SubResult.internalErr "service down" }

/-- The concrete snapshot produced by `update_from_assessments` in env0 on
the store `[w0]` with empty requirements: with no step required, the walk
exhausts and the status advances to done, stamping modified with env0's
clock. -/
def d0 : Dict :=
  [("submission_uuid", DVal.pv (PyVal.str "sub-1")),
   ("uuid", DVal.s "wf-uuid-1"),
   ("status", DVal.st Status.done),
   ("created", DVal.time 1),
   ("modified", DVal.time 5),
   ("status_details", DVal.details [])]

/-- The concrete snapshot produced by `create_workflow` in env0 on the empty
store for submission "new-sub". -/
def dc0 : Dict :=
  [("submission_uuid", DVal.pv (PyVal.str "new-sub")),
   ("uuid", DVal.s "wf-uuid-2"),
   ("status", DVal.st Status.peer),
   ("created", DVal.time 5),
   ("modified", DVal.time 5)]

/-- Helper: `create_workflow` never lets a raw collaborator error escape. -/
theorem create_workflow_noRawLeak (env : Env) (store : Store) (u : PyVal) :
    noRawLeak (create_workflow env store u).1 = true := by
  unfold create_workflow
  repeat' split
  all_goals rfl

/-- Helper: every error returned by `get_workflow_model` belongs to the typed
workflow error family. -/
theorem get_workflow_model_wf (env : Env) (store : Store) (u : PyVal) :
    ∀ e, get_workflow_model env store u = Except.error e →
      isWorkflowError e = true := by
  intro e he
  cases u with
  | other t =>
      simp only [get_workflow_model] at he
      cases he
      rfl
  | str s =>
      simp only [get_workflow_model] at he
      split at he
      · cases he
        rfl
      · split at he
        · cases he
        · cases he
          rfl

/-- Helper: `update_from_assessments` never lets a raw collaborator error
escape. -/
theorem update_from_assessments_noRawLeak (env : Env) (store : Store)
    (u : PyVal) (req : List Status) :
    noRawLeak (update_from_assessments env store u req).1 = true := by
  unfold update_from_assessments
  split
  next e heq => exact get_workflow_model_wf env store u e heq
  next w heq =>
    split
    next => rfl
    next => rfl

/-- Helper: a result with no raw leak raises only members of the workflow
error family. -/
theorem noRawLeak_raisesOnlyBase (r : Except PyExn Dict)
    (h : noRawLeak r = true) : raisesOnlyBase r := by
  cases r with
  | ok d => trivial
  | error e =>
      cases e with
      | wf w => exact ⟨w, rfl⟩
      | subNotFound m => simp [noRawLeak, isWorkflowError] at h
      | subRequest m => simp [noRawLeak, isWorkflowError] at h
      | subInternal m => simp [noRawLeak, isWorkflowError] at h
      | dbError m => simp [noRawLeak, isWorkflowError] at h
      | doesNotExist m => simp [noRawLeak, isWorkflowError] at h
      | otherExn m => simp [noRawLeak, isWorkflowError] at h

/-- Helper equation: `create_workflow` when the submission service reports
the submission missing. -/
theorem create_workflow_subNotFound_eq (env : Env) (store : Store) (u : PyVal)
    (m : String) (henv : env.sub u = SubResult.notFound m) :
    create_workflow env store u =
      (Except.error (PyExn.wf (WorkflowError.request
        (sub_err_msg u "submission not found"))), store) := by
  unfold create_workflow
  split
  next m2 heq => rw [henv] at heq
  next m2 heq => rw [henv] at heq; cases heq
  next m2 heq => rw [henv] at heq; cases heq
  next s2 heq => rw [henv] at heq; cases heq

/-- Helper equation: `create_workflow` when the submission service rejects
the request as invalid. -/
theorem create_workflow_subInvalid_eq (env : Env) (store : Store) (u : PyVal)
    (m : String) (henv : env.sub u = SubResult.invalid m) :
    create_workflow env store u =
      (Except.error (PyExn.wf (WorkflowError.request (sub_err_msg u m))),
       store) := by
  unfold create_workflow
  split
  next m2 heq => rw [henv] at heq; cases heq
  next m2 heq => rw [henv] at heq; cases heq; rfl
  next m2 heq => rw [henv] at heq; cases heq
  next s2 heq => rw [henv] at heq; cases heq

/-- Helper equation: `create_workflow` when the submission service fails
internally. -/
theorem create_workflow_subInternal_eq (env : Env) (store : Store) (u : PyVal)
    (m : String) (henv : env.sub u = SubResult.internalErr m) :
    create_workflow env store u =
      (Except.error (PyExn.wf (WorkflowError.internal
        ("retrieving submission " ++ pvStr u ++
         " failed with unknown error: " ++ m))), store) := by
  unfold create_workflow
  split
  next m2 heq => rw [henv] at heq; cases heq
  next m2 heq => rw [henv] at heq; cases heq
  next m2 heq => rw [henv] at heq; cases heq; rfl
  next s2 heq => rw [henv] at heq; cases heq

/-- Helper equation: `create_workflow` when the submission resolves but a
workflow record for this submission already exists in the store. -/
theorem create_workflow_duplicate_eq (env : Env) (store : Store) (u : PyVal)
    (s : String) (henv : env.sub u = SubResult.ok s)
    (hdup : (store.find? (fun w => w.submission_uuid == u)).isSome = true) :
    create_workflow env store u =
      (Except.error (PyExn.wf (WorkflowError.internal
        ("Could not create assessment workflow: " ++ integrityError))),
       store) := by
  unfold create_workflow
  split
  next m2 heq => rw [henv] at heq; cases heq
  next m2 heq => rw [henv] at heq; cases heq
  next m2 heq => rw [henv] at heq; cases heq
  next s2 heq => rw [if_pos hdup]

/-- Helper equation: `create_workflow` on the happy path — the submission
resolves, no record exists yet and the storage layer does not fault. -/
theorem create_workflow_ok_eq (env : Env) (store : Store) (u : PyVal)
    (s : String) (henv : env.sub u = SubResult.ok s)
    (hfree : store.find? (fun w => w.submission_uuid == u) = none)
    (hdb : env.createFail = none) :
    create_workflow env store u =
      (Except.ok (serialize (newWorkflow env u)),
       newWorkflow env u :: store) := by
  unfold create_workflow
  split
  next m2 heq => rw [henv] at heq; cases heq
  next m2 heq => rw [henv] at heq; cases heq
  next m2 heq => rw [henv] at heq; cases heq
  next s2 heq =>
    rw [hfree, hdb]
    rfl

/-- Helper equation: `get_workflow_model` when no record matches the given
string submission_uuid and the store behaves. -/
theorem get_workflow_model_missing_eq (env : Env) (store : Store) (s : String)
    (hexn : env.getExn = none)
    (hf : store.find? (fun w => w.submission_uuid == PyVal.str s) = none) :
    get_workflow_model env store (PyVal.str s) =
      Except.error (PyExn.wf (WorkflowError.notFound
        ("No assessment workflow matching submission_uuid " ++ s))) := by
  simp only [get_workflow_model]
  rw [hexn, hf]

/-- Helper equation: `get_workflow_model` when a record matches the given
string submission_uuid and the store behaves. -/
theorem get_workflow_model_found_eq (env : Env) (store : Store) (s : String)
    (w : Workflow) (hexn : env.getExn = none)
    (hf : store.find? (fun x => x.submission_uuid == PyVal.str s) = some w) :
    get_workflow_model env store (PyVal.str s) = Except.ok w := by
  simp only [get_workflow_model]
  rw [hexn, hf]

/-- Helper equation: `update_from_assessments` forwards the error of
`get_workflow_model` and leaves the store untouched. -/
theorem update_via_model_error (env : Env) (store : Store) (u : PyVal)
    (req : List Status) (e : PyExn)
    (hg : get_workflow_model env store u = Except.error e) :
    update_from_assessments env store u req = (Except.error e, store) := by
  unfold update_from_assessments
  rw [hg]

/-- Helper equation: `update_from_assessments` on a fetched record reduces to
the model-layer update. -/
theorem update_via_model (env : Env) (store : Store) (u : PyVal)
    (req : List Status) (w : Workflow)
    (hg : get_workflow_model env store u = Except.ok w) :
    update_from_assessments env store u req =
      match modelUpdateFromAssessments env w req with
      | Except.error we => (Except.error (PyExn.wf we), store)
      | Except.ok w2 =>
          (Except.ok (serialized_with_details env w2 req),
           store.map (fun x => if x.uuid = w2.uuid then w2 else x)) := by
  unfold update_from_assessments
  rw [hg]

/-- Helper: every success of `update_from_assessments` carries a snapshot of
the shape produced by `serialized_with_details`. -/
theorem update_ok_shape (env : Env) (store : Store) (u : PyVal)
    (req : List Status) (d : Dict)
    (hu : (update_from_assessments env store u req).1 = Except.ok d) :
    ∃ w2, d = serialized_with_details env w2 req := by
  unfold update_from_assessments at hu
  split at hu
  · simp at hu
  · split at hu
    · simp at hu
    · next w2 heq =>
        simp at hu
        exact ⟨w2, hu.symm⟩

/-- Helper: every success of `create_workflow` carries a snapshot of the
shape produced by `serialize`. -/
theorem create_ok_shape (env : Env) (store : Store) (u : PyVal) (dc : Dict)
    (hc : (create_workflow env store u).1 = Except.ok dc) :
    ∃ w, dc = serialize w := by
  unfold create_workflow at hc
  split at hc
  · simp at hc
  · simp at hc
  · simp at hc
  · split at hc
    · simp at hc
    · split at hc
      · simp at hc
      · simp at hc
        exact ⟨newWorkflow env u, hc.symm⟩

/-- C2: `get_workflow_for_submission` returns exactly the result (value and
resulting store, hence also the very same errors) of
`update_from_assessments` on the same arguments: the get operation always
freshly recomputes, never serving a stale value. -/
theorem c2_get_is_update (env : Env) (store : Store) (u : PyVal)
    (req : List Status) :
    get_workflow_for_submission env store u req =
      update_from_assessments env store u req := rfl

/-- C3: every failure of an external collaborator observed by the public
operations is re-raised as a typed workflow error: for every environment
(hence every submission-service and storage behaviour), the result of each
public operation is either a success or a typed workflow error — never a raw
collaborator exception. -/
theorem c3_no_raw_error_escapes (env : Env) (store : Store) (u : PyVal)
    (req : List Status) :
    noRawLeak (create_workflow env store u).1 = true ∧
    noRawLeak (update_from_assessments env store u req).1 = true ∧
    noRawLeak (get_workflow_for_submission env store u req).1 = true :=
  ⟨create_workflow_noRawLeak env store u,
   update_from_assessments_noRawLeak env store u req,
   update_from_assessments_noRawLeak env store u req⟩

/-- C7: for a non-string submission_uuid, `update_from_assessments` (and
therefore `get_workflow_for_submission`) fails with the Request-kind error
"submission_uuid must be a string type", and this holds identically for every
environment and store with the store returned untouched — the error is raised
before any store access is attempted. -/
theorem c7_non_string_uuid_request_error (env : Env) (store : Store)
    (req : List Status) (tag : String) :
    update_from_assessments env store (PyVal.other tag) req =
      (Except.error (PyExn.wf (WorkflowError.request
        "submission_uuid must be a string type")), store) ∧
    get_workflow_for_submission env store (PyVal.other tag) req =
      (Except.error (PyExn.wf (WorkflowError.request
        "submission_uuid must be a string type")), store) :=
  ⟨rfl, rfl⟩

/-- C10: every error raised by the three public operations is an instance of
the single base family WorkflowError (the AssessmentWorkflowError base
class), wrapped as `PyExn.wf`: a caller catching the base type catches every
API error. -/
theorem c10_errors_share_base (env : Env) (store : Store) (u : PyVal)
    (req : List Status) :
    raisesOnlyBase (create_workflow env store u).1 ∧
    raisesOnlyBase (update_from_assessments env store u req).1 ∧
    raisesOnlyBase (get_workflow_for_submission env store u req).1 :=
  ⟨noRawLeak_raisesOnlyBase _ (create_workflow_noRawLeak env store u),
   noRawLeak_raisesOnlyBase _ (update_from_assessments_noRawLeak env store u req),
   noRawLeak_raisesOnlyBase _ (update_from_assessments_noRawLeak env store u req)⟩

/-- C1 (counterexample): in a well-behaved environment where a workflow for
submission "sub-1" already exists, `create_workflow` does fail and does not
return a second workflow, but the error raised is the Internal kind (the
store's duplicate-key DatabaseError caught at line 124 of api.py), not the
Request kind stated by the claim. -/
theorem c1_counterexample :
    isReqErr (create_workflow env0 [w0] (PyVal.str "sub-1")).1 = false ∧
    isInternalErr (create_workflow env0 [w0] (PyVal.str "sub-1")).1 = true ∧
    isOk (create_workflow env0 [w0] (PyVal.str "sub-1")).1 = false ∧
    (create_workflow env0 [w0] (PyVal.str "sub-1")).2 = [w0] := by
  decide

/-- C1 (amended): `create_workflow` for a submission that already has a
workflow never succeeds and never creates a second workflow — the store is
returned unchanged — and whenever the submission service resolves the
submission, the failure raised is an AssessmentWorkflowInternalError (the
duplicate-key DatabaseError from the store is caught and wrapped), not a
RequestError. -/
theorem c1_duplicate_create_fails (env : Env) (store : Store) (u : PyVal)
    (hdup : (store.find? (fun w => w.submission_uuid == u)).isSome = true) :
    isOk (create_workflow env store u).1 = false ∧
    (create_workflow env store u).2 = store ∧
    (∀ s, env.sub u = SubResult.ok s →
      isInternalErr (create_workflow env store u).1 = true) := by
  cases henv : env.sub u with
  | ok s =>
      have he := create_workflow_duplicate_eq env store u s henv hdup
      refine ⟨by rw [he]; rfl, by rw [he], ?_⟩
      intro s2 h2
      rw [he]
      rfl
  | notFound m =>
      have he := create_workflow_subNotFound_eq env store u m henv
      refine ⟨by rw [he]; rfl, by rw [he], ?_⟩
      intro s2 h2
      cases h2
  | invalid m =>
      have he := create_workflow_subInvalid_eq env store u m henv
      refine ⟨by rw [he]; rfl, by rw [he], ?_⟩
      intro s2 h2
      cases h2
  | internalErr m =>
      have he := create_workflow_subInternal_eq env store u m henv
      refine ⟨by rw [he]; rfl, by rw [he], ?_⟩
      intro s2 h2
      cases h2

/-- C1 witness: the amended theorem applied to the concrete well-behaved
environment with an existing workflow for "sub-1". -/
theorem c1_duplicate_create_fails_witness :
    isOk (create_workflow env0 [w0] (PyVal.str "sub-1")).1 = false ∧
    (create_workflow env0 [w0] (PyVal.str "sub-1")).2 = [w0] ∧
    isInternalErr (create_workflow env0 [w0] (PyVal.str "sub-1")).1 = true := by
  have h := c1_duplicate_create_fails env0 [w0] (PyVal.str "sub-1") (by decide)
  exact ⟨h.1, h.2.1, h.2.2 "submission-record" (by decide)⟩

/-- C4: whenever the submission service accepts the submission (and the
store can insert), `create_workflow` creates the workflow with initial
status peer — the first step of the fixed evaluation order — and the
returned snapshot carries that status. -/
theorem c4_initial_status_peer (env : Env) (store : Store) (u : PyVal)
    (s : String) (henv : env.sub u = SubResult.ok s)
    (hfree : store.find? (fun w => w.submission_uuid == u) = none)
    (hdb : env.createFail = none) :
    (create_workflow env store u).1 =
      Except.ok (serialize (newWorkflow env u)) ∧
    (create_workflow env store u).2 = newWorkflow env u :: store ∧
    (newWorkflow env u).status = Status.peer ∧
    (serialize (newWorkflow env u)).lookup "status" =
      some (DVal.st Status.peer) ∧
    stepOrder.head? = some Status.peer := by
  have he := create_workflow_ok_eq env store u s henv hfree hdb
  exact ⟨by rw [he], by rw [he], rfl, rfl, rfl⟩

/-- C4 witness: creation on the empty store in the well-behaved environment
yields a workflow with status peer. -/
theorem c4_initial_status_peer_witness :
    (create_workflow env0 [] (PyVal.str "new-sub")).1 =
      Except.ok (serialize (newWorkflow env0 (PyVal.str "new-sub"))) ∧
    (create_workflow env0 [] (PyVal.str "new-sub")).2 =
      [newWorkflow env0 (PyVal.str "new-sub")] ∧
    (newWorkflow env0 (PyVal.str "new-sub")).status = Status.peer ∧
    (serialize (newWorkflow env0 (PyVal.str "new-sub"))).lookup "status" =
      some (DVal.st Status.peer) ∧
    stepOrder.head? = some Status.peer :=
  c4_initial_status_peer env0 [] (PyVal.str "new-sub") "submission-record"
    rfl rfl rfl

/-- C5: a submission-service NotFound failure makes `create_workflow` fail
with a RequestError whose message contains "submission not found"; an
InvalidRequest failure becomes a RequestError carrying the service message;
an Internal failure becomes an InternalError. -/
theorem c5_submission_service_failures (env : Env) (store : Store)
    (u : PyVal) (m : String) :
    (env.sub u = SubResult.notFound m →
      create_workflow env store u =
        (Except.error (PyExn.wf (WorkflowError.request
          (sub_err_msg u "submission not found"))), store) ∧
      ∃ a, sub_err_msg u "submission not found" =
        a ++ "submission not found") ∧
    (env.sub u = SubResult.invalid m →
      create_workflow env store u =
        (Except.error (PyExn.wf (WorkflowError.request (sub_err_msg u m))),
         store)) ∧
    (env.sub u = SubResult.internalErr m →
      create_workflow env store u =
        (Except.error (PyExn.wf (WorkflowError.internal
          ("retrieving submission " ++ pvStr u ++
           " failed with unknown error: " ++ m))), store)) := by
  refine ⟨fun h => ⟨create_workflow_subNotFound_eq env store u m h, ?_⟩,
    fun h => create_workflow_subInvalid_eq env store u m h,
    fun h => create_workflow_subInternal_eq env store u m h⟩
  exact ⟨"Could not create assessment workflow: retrieving submission " ++
    pvStr u ++ " failed: ", rfl⟩

/-- C5 witness: the three submission-service failure kinds exercised in
three concrete environments. -/
theorem c5_submission_service_failures_witness :
    (create_workflow envSubMissing [] (PyVal.str "sub-9") =
      (Except.error (PyExn.wf (WorkflowError.request
        (sub_err_msg (PyVal.str "sub-9") "submission not found"))), []) ∧
     ∃ a, sub_err_msg (PyVal.str "sub-9") "submission not found" =
       a ++ "submission not found") ∧
    create_workflow envSubInvalid [] (PyVal.str "sub-9") =
      (Except.error (PyExn.wf (WorkflowError.request
        (sub_err_msg (PyVal.str "sub-9") "bad request"))), []) ∧
    create_workflow envSubDown [] (PyVal.str "sub-9") =
      (Except.error (PyExn.wf (WorkflowError.internal
        ("retrieving submission " ++ pvStr (PyVal.str "sub-9") ++
         " failed with unknown error: " ++ "service down"))), []) :=
  ⟨(c5_submission_service_failures envSubMissing [] (PyVal.str "sub-9")
      "submission no").1 rfl,
   (c5_submission_service_failures envSubInvalid [] (PyVal.str "sub-9")
      "bad request").2.1 rfl,
   (c5_submission_service_failures envSubDown [] (PyVal.str "sub-9")
      "service down").2.2 rfl⟩

/-- C6: when no workflow record exists for a (string) submission_uuid and
the store behaves, both `update_from_assessments` and
`get_workflow_for_submission` fail with the NotFound-kind workflow error and
leave the store unchanged. -/
theorem c6_missing_workflow_not_found (env : Env) (store : Store)
    (s : String) (req : List Status) (hexn : env.getExn = none)
    (hf : store.find? (fun w => w.submission_uuid == PyVal.str s) = none) :
    update_from_assessments env store (PyVal.str s) req =
      (Except.error (PyExn.wf (WorkflowError.notFound
        ("No assessment workflow matching submission_uuid " ++ s))), store) ∧
    get_workflow_for_submission env store (PyVal.str s) req =
      (Except.error (PyExn.wf (WorkflowError.notFound
        ("No assessment workflow matching submission_uuid " ++ s))), store) := by
  have hg := get_workflow_model_missing_eq env store s hexn hf
  have h1 := update_via_model_error env store (PyVal.str s) req _ hg
  exact ⟨h1, h1⟩

/-- C6 witness: querying an unknown submission id on the empty store fails
with the NotFound-kind error. -/
theorem c6_missing_workflow_not_found_witness :
    update_from_assessments env0 [] (PyVal.str "ghost") [] =
      (Except.error (PyExn.wf (WorkflowError.notFound
        ("No assessment workflow matching submission_uuid " ++ "ghost"))),
       []) ∧
    get_workflow_for_submission env0 [] (PyVal.str "ghost") [] =
      (Except.error (PyExn.wf (WorkflowError.notFound
        ("No assessment workflow matching submission_uuid " ++ "ghost"))),
       []) :=
  c6_missing_workflow_not_found env0 [] "ghost" [] rfl rfl

/-- C8: every snapshot returned by `update_from_assessments` (and hence by
`get_workflow_for_submission`) carries exactly the fields submission_uuid,
uuid, status, created, modified and status_details, in this order, while
every snapshot returned by `create_workflow` carries the same fields except
status_details, which is absent. -/
theorem c8_snapshot_fields (env : Env) (store store2 : Store) (u v : PyVal)
    (req : List Status) (d dc : Dict)
    (hu : (update_from_assessments env store u req).1 = Except.ok d)
    (hc : (create_workflow env store2 v).1 = Except.ok dc) :
    d.map Prod.fst =
      ["submission_uuid", "uuid", "status", "created", "modified",
       "status_details"] ∧
    (d.lookup "status_details").isSome = true ∧
    dc.map Prod.fst =
      ["submission_uuid", "uuid", "status", "created", "modified"] ∧
    dc.lookup "status_details" = none := by
  obtain ⟨w2, hd⟩ := update_ok_shape env store u req d hu
  obtain ⟨w, hdc⟩ := create_ok_shape env store2 v dc hc
  subst hd
  subst hdc
  exact ⟨rfl, rfl, rfl, rfl⟩

/-- C8 witness: the concrete snapshots of a successful update and a
successful creation in the well-behaved environment. -/
theorem c8_snapshot_fields_witness :
    d0.map Prod.fst =
      ["submission_uuid", "uuid", "status", "created", "modified",
       "status_details"] ∧
    (d0.lookup "status_details").isSome = true ∧
    dc0.map Prod.fst =
      ["submission_uuid", "uuid", "status", "created", "modified"] ∧
    dc0.lookup "status_details" = none :=
  c8_snapshot_fields env0 [w0] [] (PyVal.str "sub-1") (PyVal.str "new-sub")
    [] d0 dc0 rfl rfl

/-- C9: whenever the submission service fails (not found, invalid request or
internal), `create_workflow` fails and the store is returned unchanged — no
workflow record is created, because the error is raised before the store's
create is attempted. -/
theorem c9_no_creation_on_sub_failure (env : Env) (store : Store) (u : PyVal)
    (h : isOkSub (env.sub u) = false) :
    isOk (create_workflow env store u).1 = false ∧
    (create_workflow env store u).2 = store := by
  cases henv : env.sub u with
  | ok s =>
      rw [henv] at h
      simp [isOkSub] at h
  | notFound m =>
      have he := create_workflow_subNotFound_eq env store u m henv
      exact ⟨by rw [he]; rfl, by rw [he]⟩
  | invalid m =>
      have he := create_workflow_subInvalid_eq env store u m henv
      exact ⟨by rw [he]; rfl, by rw [he]⟩
  | internalErr m =>
      have he := create_workflow_subInternal_eq env store u m henv
      exact ⟨by rw [he]; rfl, by rw [he]⟩

/-- C9 witness: a failing submission service on the empty store creates
nothing. -/
theorem c9_no_creation_on_sub_failure_witness :
    isOk (create_workflow envSubMissing [] (PyVal.str "sub-9")).1 = false ∧
    (create_workflow envSubMissing [] (PyVal.str "sub-9")).2 = [] :=
  c9_no_creation_on_sub_failure envSubMissing [] (PyVal.str "sub-9")
    (by decide)

end WorkflowApi
